import Mathlib

/-
Verification of the xray-grpc glue library: a shallow embedding of the
single Go source file (client interceptor, server interceptor, and the
default host-from-target helper), with theorems settling the specified
properties.  Go strings are modelled as lists of characters; the colon
byte searched for by strings.IndexByte is a one-byte UTF-8 character, so
the first colon byte of a Go string is the first colon character.
Fallible operations (Go panics) are modelled with Option.
-/

namespace XrayGrpc

/-- Characters of a Go string. -/
abbrev GoStr := List Char

/-- Position of the first occurrence of a character in a string, if any. -/
def firstIndexOf (c : Char) : GoStr → Option Nat
  | [] => none
  | x :: xs => if x = c then some 0 else (firstIndexOf c xs).map (fun i => i + 1)

/-- Go strings.IndexByte: position of the first occurrence, or -1 when absent. -/
def stringsIndexByte (s : GoStr) (c : Char) : Int :=
  match firstIndexOf c s with
  | none => -1
  | some i => i

/-- Go slice expression s[:i]: the first i characters when 0 ≤ i ≤ len(s);
    outside those bounds the Go program panics (slice bounds out of range),
    modelled as none. -/
def goSliceTo (s : GoStr) (i : Int) : Option GoStr :=
  if 0 ≤ i ∧ i ≤ s.length then some (s.take i.toNat) else none

/-- Whether the first list begins with the second. -/
def beginsWith : GoStr → GoStr → Bool
  | _, [] => true
  | [], _ :: _ => false
  | x :: xs, y :: ys => x = y && beginsWith xs ys

/-- Recursion core of removeAll, structurally recursive on a fuel bound;
    every step consumes at least one character of s, so fuel = length s
    makes the zero-fuel branch unreachable. -/
def removeAllFuel (pat : GoStr) : Nat → GoStr → GoStr
  | _, [] => []
  | 0, s => s
  | fuel + 1, x :: xs =>
    if beginsWith (x :: xs) pat then removeAllFuel pat fuel (xs.drop (pat.length - 1))
    else x :: removeAllFuel pat fuel xs

/-- Go strings.ReplaceAll(s, pat, "") for non-empty pat: delete every
    occurrence of pat, scanning left to right, non-overlapping. -/
def removeAll (pat : GoStr) (s : GoStr) : GoStr :=
  removeAllFuel pat s.length s

/-- GetDefaultHostFromTargetFunc from the source: for a namespace ns it
    returns the function mapping target to
    ReplaceAll(target[:IndexByte(target, colon)], "." ++ ns, "").
    A none result models the Go panic on a colon-less target. -/
def GetDefaultHostFromTargetFunc (ns : GoStr) : GoStr → Option GoStr :=
  fun target =>
    match goSliceTo target (stringsIndexByte target ':') with
    | none => none
    | some withoutPort => some (removeAll ('.' :: ns) withoutPort)

/-- Removal of only the first occurrence of pat, leaving later occurrences
    in place.  This follows the wording of claim C1, for comparison with
    removeAll; it is not taken from the source. -/
def removeFirst (pat : GoStr) : GoStr → GoStr
  | [] => []
  | x :: xs =>
    if beginsWith (x :: xs) pat then xs.drop (pat.length - 1)
    else x :: removeFirst pat xs

/-- The result claim C1 asserts for the default host-from-target function:
    truncate at the first colon, then remove only the first occurrence of
    "." ++ ns.  Follows the wording of the claim, not the source. -/
def claimedHostFromTarget (ns : GoStr) (target : GoStr) : Option GoStr :=
  match goSliceTo target (stringsIndexByte target ':') with
  | none => none
  | some withoutPort => some (removeFirst ('.' :: ns) withoutPort)

/-- The constant GrpcMethod of the source: gRPC is always POST. -/
def GrpcMethod : String := "POST"

/-- The constant CustomUserAgent of the source. -/
def CustomUserAgent : String := "Vendrive-gRPC-XRAY-Interceptor"

/-- The metadata key xray.TraceIDHeaderKey under which the trace header
    travels. -/
def TraceIDHeaderKey : String := "x-amzn-trace-id"

/-- HTTP request data recorded on a segment (xray.RequestData); Go zero
    values are empty strings. -/
structure RequestData where
  Method : String
  URL : String
  ClientIP : String
  UserAgent : String
deriving Repr, DecidableEq

/-- HTTP response data recorded on a segment; the Go zero value of the
    status field is 0. -/
structure ResponseData where
  Status : Nat
deriving Repr, DecidableEq

/-- HTTP block of a segment. -/
structure HTTPData where
  Request : RequestData
  Response : ResponseData
deriving Repr, DecidableEq

/-- A freshly created request record, all fields at their zero values. -/
def emptyRequest : RequestData :=
  { Method := "", URL := "", ClientIP := "", UserAgent := "" }

/-- A freshly created HTTP block, all fields at their zero values. -/
def emptyHTTP : HTTPData :=
  { Request := emptyRequest, Response := { Status := 0 } }

/-- The segment state the interceptors mutate.  The field traceContext
    records the serialized trace-context string the segment was created
    from (the argument the source passes to header.FromString before
    xray.NewSegmentFromHeader); parsing it is external SDK work. -/
structure Segment where
  name : String
  traceContext : String
  http : HTTPData
deriving Repr, DecidableEq

/-- Incoming gRPC metadata: a finite map from keys to lists of values. -/
abbrev Metadata := List (String × List String)

/-- Segment naming strategy (xray.SegmentNamer); the fixed variant ignores
    its argument. -/
abbrev SegmentNamer := String → String

/-- xray.NewFixedSegmentNamer: always returns the configured name. -/
def NewFixedSegmentNamer (name : String) : SegmentNamer := fun _ => name

/-- Observable outcome of one server-interceptor invocation: the returned
    value and error, whether the wrapped handler ran, the final state of
    the created segment (none when no segment was created), the list of
    Close invocations with their error-payload arguments, the list of
    writes to the HTTP response status, and the trace-context string
    handed to segment creation (none when never reached). -/
structure ServerOutcome (ρ : Type) where
  resp : Option ρ
  err : Option String
  handlerInvoked : Bool
  segment : Option Segment
  closeCalls : List (Option String)
  statusWrites : List Nat
  traceStringUsed : Option String
deriving Repr, DecidableEq

/-- Per-call behavior of the interceptor returned by
    NewGrpcXrayUnaryServerInterceptor in the source.  Inputs model the
    call context: md is the incoming metadata mapping (none when the
    context carries no metadata), peerAddr the peer address string when
    peer information is present, fullMethod the registered method path of
    the handler (info.FullMethod), and handler the pair of result and
    error the wrapped handler produces when invoked. -/
def NewGrpcXrayUnaryServerInterceptor {ρ : Type} (sn : SegmentNamer)
    (md : Option Metadata) (peerAddr : Option String) (fullMethod : String)
    (handler : Option ρ × Option String) : ServerOutcome ρ :=
  let name := sn "only NewFixedSegmentNamer is supported"
  match md with
  | none =>
    { resp := none, err := some "unable to read metadata", handlerInvoked := false,
      segment := none, closeCalls := [], statusWrites := [], traceStringUsed := none }
  | some m =>
    let traceString :=
      match List.lookup TraceIDHeaderKey m with
      | some traceHeaderValueList =>
        match traceHeaderValueList with
        | [] => ""
        | v :: _ => v
      | none => ""
    let seg : Segment := { name := name, traceContext := traceString, http := emptyHTTP }
    let clientIP :=
      match peerAddr with
      | some a => a
      | none => ""
    let reqData : RequestData :=
      { Method := GrpcMethod, URL := fullMethod, ClientIP := clientIP,
        UserAgent := CustomUserAgent }
    let seg := { seg with http := { seg.http with Request := reqData } }
    let resp := handler.1
    let err := handler.2
    let status :=
      match err with
      | some _ => 400
      | none => 200
    let seg := { seg with http := { seg.http with Response := { Status := status } } }
    { resp := resp, err := err, handlerInvoked := true, segment := some seg,
      closeCalls := [none], statusWrites := [status], traceStringUsed := some traceString }

/-- Observable outcome of one client-interceptor invocation: the returned
    error, whether applying hostFromTarget panicked, whether the wrapped
    call ran, how many times hostFromTarget was applied, the downstream
    header value injected into outgoing metadata (none when no injection
    happened), the writes to the request method and to the response
    status, and the final segment state. -/
structure ClientOutcome where
  err : Option String
  panicked : Bool
  invokerInvoked : Bool
  hostApplications : Nat
  injectedHeader : Option String
  methodWrites : List String
  statusWrites : List Nat
  segment : Option Segment
deriving Repr, DecidableEq

/-- Per-call behavior of the interceptor returned by
    NewGrpcXrayUnaryClientInterceptor in the source.  hostFromTarget may
    fail (a Go panic, as the default normalizer does on a colon-less
    target); none models the panic.  target is the connection target
    string (cc.Target()); segInCtx is the segment xray.GetSegment finds
    inside xray.Capture, none when tracing is inactive; downstreamHeader
    is the serialized downstream trace header the SDK produces for that
    segment; invokerErr is the error of the wrapped call. -/
def NewGrpcXrayUnaryClientInterceptor (hostFromTarget : GoStr → Option GoStr)
    (target : GoStr) (segInCtx : Option Segment) (downstreamHeader : String)
    (invokerErr : Option String) : ClientOutcome :=
  match hostFromTarget target with
  | none =>
    { err := none, panicked := true, invokerInvoked := false, hostApplications := 1,
      injectedHeader := none, methodWrites := [], statusWrites := [], segment := segInCtx }
  | some _ =>
    match segInCtx with
    | none =>
      { err := invokerErr, panicked := false, invokerInvoked := true, hostApplications := 1,
        injectedHeader := none, methodWrites := [], statusWrites := [], segment := none }
    | some seg =>
      let seg :=
        { seg with http :=
          { seg.http with Request := { seg.http.Request with Method := GrpcMethod } } }
      let err := invokerErr
      let status :=
        match err with
        | some _ => 400
        | none => 200
      let seg :=
        { seg with http := { seg.http with Response := { Status := status } } }
      { err := err, panicked := false, invokerInvoked := true, hostApplications := 1,
        injectedHeader := some downstreamHeader, methodWrites := [GrpcMethod],
        statusWrites := [status], segment := some seg }

theorem firstIndexOf_eq_none (c : Char) (s : GoStr) :
    firstIndexOf c s = none ↔ c ∉ s := by
  induction s with
  | nil => simp [firstIndexOf]
  | cons x xs ih =>
    by_cases hx : x = c
    · simp [firstIndexOf, hx]
    · have hcx : ¬c = x := fun hh => hx hh.symm
      simp [firstIndexOf, hx, ih, hcx]

theorem firstIndexOf_spec (c : Char) (s : GoStr) (i : Nat)
    (h : firstIndexOf c s = some i) :
    i < s.length ∧ s.take i = s.takeWhile (fun x => x != c) := by
  induction s generalizing i with
  | nil => simp [firstIndexOf] at h
  | cons x xs ih =>
    by_cases hx : x = c
    · simp [firstIndexOf, hx] at h
      subst h
      simp [hx, List.takeWhile]
    · simp [firstIndexOf, hx] at h
      obtain ⟨j, hj, hji⟩ := h
      obtain ⟨hlt, htake⟩ := ih j hj
      subst hji
      constructor
      · simpa using Nat.succ_lt_succ hlt
      · have hbne : (x != c) = true := by simp [hx]
        simp [List.takeWhile, hx, htake, hbne]

end XrayGrpc

namespace XrayGrpc

/-- C8: for every namespace, the default host-from-target function
    succeeds exactly on the targets that contain a colon; on a colon-less
    target the slice index is -1 and the Go program panics with an
    out-of-range error, modelled by none. -/
theorem C8_default_host_totality (ns target : GoStr) :
    (GetDefaultHostFromTargetFunc ns target).isSome = true ↔ ':' ∈ target := by
  unfold GetDefaultHostFromTargetFunc stringsIndexByte goSliceTo
  cases hfi : firstIndexOf ':' target with
  | none =>
    have hmem : ':' ∉ target := (firstIndexOf_eq_none ':' target).mp hfi
    simp [hmem]
  | some i =>
    have hmem : ':' ∈ target := by
      by_contra hcon
      rw [(firstIndexOf_eq_none ':' target).mpr hcon] at hfi
      exact Option.noConfusion hfi
    obtain ⟨hlt, _⟩ := firstIndexOf_spec ':' target i hfi
    have h0 : (0 : Int) ≤ (i : Int) := by exact_mod_cast Nat.zero_le i
    have h1 : (i : Int) ≤ (target.length : Int) := by exact_mod_cast Nat.le_of_lt hlt
    simp [h0, h1, hmem]

/-- C1, counterexample: with namespace "a" and target "x.a.a:1" the source
    function removes every occurrence of ".a" and yields "x", while the
    claim asserts only the first occurrence is removed, which would
    yield "x.a". -/
theorem C1_counterexample :
    GetDefaultHostFromTargetFunc ('a' :: []) ('x' :: '.' :: 'a' :: '.' :: 'a' :: ':' :: '1' :: []) =
        some ('x' :: []) ∧
      claimedHostFromTarget ('a' :: []) ('x' :: '.' :: 'a' :: '.' :: 'a' :: ':' :: '1' :: []) =
        some ('x' :: '.' :: 'a' :: []) ∧
      GetDefaultHostFromTargetFunc ('a' :: []) ('x' :: '.' :: 'a' :: '.' :: 'a' :: ':' :: '1' :: []) ≠
        claimedHostFromTarget ('a' :: []) ('x' :: '.' :: 'a' :: '.' :: 'a' :: ':' :: '1' :: []) := by
  refine ⟨by decide, by decide, by decide⟩

/-- C1, amended: for every namespace and every target containing a colon,
    the default host-from-target function returns the target truncated at
    the first colon with every occurrence of "." followed by the
    namespace removed, scanning left to right without overlap. -/
theorem C1_default_host_removes_every_occurrence (ns target : GoStr) (h : ':' ∈ target) :
    GetDefaultHostFromTargetFunc ns target =
      some (removeAll ('.' :: ns) (target.takeWhile (fun c => c != ':'))) := by
  cases hfi : firstIndexOf ':' target with
  | none =>
    exact absurd ((firstIndexOf_eq_none ':' target).mp hfi) (by simp [h])
  | some i =>
    obtain ⟨hlt, htake⟩ := firstIndexOf_spec ':' target i hfi
    have h0 : (0 : Int) ≤ (i : Int) := by exact_mod_cast Nat.zero_le i
    have h1 : (i : Int) ≤ (target.length : Int) := by exact_mod_cast Nat.le_of_lt hlt
    unfold GetDefaultHostFromTargetFunc stringsIndexByte goSliceTo
    rw [hfi]
    simp [h0, h1, htake]

/-- Witness for the amended C1 at namespace "n" and target "a.n:5". -/
theorem C1_witness :
    ':' ∈ ('a' :: '.' :: 'n' :: ':' :: '5' :: []) ∧
      GetDefaultHostFromTargetFunc ('n' :: []) ('a' :: '.' :: 'n' :: ':' :: '5' :: []) =
        some (removeAll ('.' :: 'n' :: [])
          (('a' :: '.' :: 'n' :: ':' :: '5' :: []).takeWhile (fun c => c != ':'))) :=
  ⟨by decide, C1_default_host_removes_every_occurrence ('n' :: [])
    ('a' :: '.' :: 'n' :: ':' :: '5' :: []) (by decide)⟩

/-- C2, counterexample: a handler may return a non-nil result together
    with a non-nil error, and the interceptor passes that result through
    unchanged, so the returned result is not nil as the claim asserts. -/
theorem C2_counterexample :
    (NewGrpcXrayUnaryServerInterceptor (NewFixedSegmentNamer "svc") (some [])
        none "/pkg.Svc/M" (some (7 : Nat), some "boom")).err = some "boom" ∧
      (NewGrpcXrayUnaryServerInterceptor (NewFixedSegmentNamer "svc") (some [])
        none "/pkg.Svc/M" (some (7 : Nat), some "boom")).resp ≠ none := by
  refine ⟨rfl, by decide⟩

/-- C2, amended: when the wrapped handler returns a non-nil error, the
    segment's HTTP response status is set to 400 and the interceptor
    returns that same error together with the result value of the handler
    unchanged (nil exactly when the handler returned nil). -/
theorem C2_server_error_path {ρ : Type} (sn : SegmentNamer) (m : Metadata)
    (peerAddr : Option String) (fullMethod : String) (r : Option ρ) (e : String) :
    (NewGrpcXrayUnaryServerInterceptor sn (some m) peerAddr fullMethod (r, some e)).err =
        some e ∧
      (NewGrpcXrayUnaryServerInterceptor sn (some m) peerAddr fullMethod (r, some e)).resp = r ∧
      (NewGrpcXrayUnaryServerInterceptor sn (some m) peerAddr fullMethod
          (r, some e)).segment.map (fun s => s.http.Response.Status) = some 400 :=
  ⟨rfl, rfl, rfl⟩

/-- C3: a server-interceptor invocation whose context carries no metadata
    mapping returns a nil result and a non-nil error; the handler is
    never invoked and no segment is created. -/
theorem C3_server_missing_metadata {ρ : Type} (sn : SegmentNamer) (peerAddr : Option String)
    (fullMethod : String) (handler : Option ρ × Option String) :
    (NewGrpcXrayUnaryServerInterceptor sn none peerAddr fullMethod handler).resp = none ∧
      (NewGrpcXrayUnaryServerInterceptor sn none peerAddr fullMethod handler).err.isSome =
        true ∧
      (NewGrpcXrayUnaryServerInterceptor sn none peerAddr fullMethod handler).handlerInvoked =
        false ∧
      (NewGrpcXrayUnaryServerInterceptor sn none peerAddr fullMethod handler).segment = none :=
  ⟨rfl, rfl, rfl, rfl⟩

/-- C4: a client-interceptor invocation whose context holds no active
    segment (and whose host mapping succeeds, the normal Go execution)
    invokes the wrapped call, returns its error unchanged, injects no
    metadata, and writes neither a request method nor a response
    status. -/
theorem C4_client_no_segment (f : GoStr → Option GoStr) (target host : GoStr)
    (downstreamHeader : String) (invokerErr : Option String) (h : f target = some host) :
    (NewGrpcXrayUnaryClientInterceptor f target none downstreamHeader invokerErr).err =
        invokerErr ∧
      (NewGrpcXrayUnaryClientInterceptor f target none downstreamHeader
        invokerErr).invokerInvoked = true ∧
      (NewGrpcXrayUnaryClientInterceptor f target none downstreamHeader
        invokerErr).injectedHeader = none ∧
      (NewGrpcXrayUnaryClientInterceptor f target none downstreamHeader
        invokerErr).methodWrites = [] ∧
      (NewGrpcXrayUnaryClientInterceptor f target none downstreamHeader
        invokerErr).statusWrites = [] := by
  simp [NewGrpcXrayUnaryClientInterceptor, h]

/-- Witness for C4 at a constant host mapping and an error-free call. -/
theorem C4_witness :
    (fun _ : GoStr => some ['h']) ['s'] = some ['h'] ∧
      ((NewGrpcXrayUnaryClientInterceptor (fun _ : GoStr => some ['h']) ['s'] none "" none).err =
          none ∧
        (NewGrpcXrayUnaryClientInterceptor (fun _ : GoStr => some ['h']) ['s'] none ""
          none).invokerInvoked = true ∧
        (NewGrpcXrayUnaryClientInterceptor (fun _ : GoStr => some ['h']) ['s'] none ""
          none).injectedHeader = none ∧
        (NewGrpcXrayUnaryClientInterceptor (fun _ : GoStr => some ['h']) ['s'] none ""
          none).methodWrites = [] ∧
        (NewGrpcXrayUnaryClientInterceptor (fun _ : GoStr => some ['h']) ['s'] none ""
          none).statusWrites = []) :=
  ⟨rfl, C4_client_no_segment (fun _ : GoStr => some ['h']) ['s'] ['h'] "" none rfl⟩

/-- C5: on both sides, when a segment exists the response status is
    written exactly once, with value 400 when the wrapped invocation
    returned an error and 200 otherwise, depending only on whether the
    error is nil. -/
theorem C5_status_binary {ρ : Type} (f : GoStr → Option GoStr) (target host : GoStr)
    (seg : Segment) (downstreamHeader : String) (invokerErr : Option String)
    (sn : SegmentNamer) (m : Metadata) (peerAddr : Option String) (fullMethod : String)
    (handler : Option ρ × Option String) (h : f target = some host) :
    (NewGrpcXrayUnaryClientInterceptor f target (some seg) downstreamHeader
        invokerErr).statusWrites = [if invokerErr.isSome then 400 else 200] ∧
      (NewGrpcXrayUnaryServerInterceptor sn (some m) peerAddr fullMethod
        handler).statusWrites = [if handler.2.isSome then 400 else 200] := by
  constructor
  · cases invokerErr <;> simp [NewGrpcXrayUnaryClientInterceptor, h]
  · obtain ⟨r, e⟩ := handler
    cases e <;> simp [NewGrpcXrayUnaryServerInterceptor]

/-- Witness for C5: a failing client call and a succeeding server call. -/
theorem C5_witness :
    (fun _ : GoStr => some ['h']) ['s'] = some ['h'] ∧
      ((NewGrpcXrayUnaryClientInterceptor (fun _ : GoStr => some ['h']) ['s']
          (some { name := "n", traceContext := "", http := emptyHTTP }) ""
          (some "e")).statusWrites =
        [if (some "e" : Option String).isSome then 400 else 200] ∧
      (NewGrpcXrayUnaryServerInterceptor (NewFixedSegmentNamer "svc") (some []) none "/m"
          ((none : Option Nat), (none : Option String))).statusWrites =
        [if ((none : Option Nat), (none : Option String)).2.isSome then 400 else 200]) :=
  ⟨rfl, C5_status_binary (fun _ : GoStr => some ['h']) ['s'] ['h']
    { name := "n", traceContext := "", http := emptyHTTP } "" (some "e")
    (NewFixedSegmentNamer "svc") [] none "/m" ((none : Option Nat), (none : Option String)) rfl⟩

/-- C6: with metadata present, the trace-context string used to create
    the segment is the first value under the trace-header key when that
    key maps to a non-empty list, and the empty string when the key maps
    to an empty list or is absent. -/
theorem C6_trace_string {ρ : Type} (sn : SegmentNamer) (m : Metadata)
    (peerAddr : Option String) (fullMethod : String) (handler : Option ρ × Option String) :
    (∀ v vs, List.lookup TraceIDHeaderKey m = some (v :: vs) →
        (NewGrpcXrayUnaryServerInterceptor sn (some m) peerAddr fullMethod
          handler).traceStringUsed = some v) ∧
      (List.lookup TraceIDHeaderKey m = some [] →
        (NewGrpcXrayUnaryServerInterceptor sn (some m) peerAddr fullMethod
          handler).traceStringUsed = some "") ∧
      (List.lookup TraceIDHeaderKey m = none →
        (NewGrpcXrayUnaryServerInterceptor sn (some m) peerAddr fullMethod
          handler).traceStringUsed = some "") := by
  refine ⟨fun v vs hv => ?_, fun hv => ?_, fun hv => ?_⟩ <;>
    simp [NewGrpcXrayUnaryServerInterceptor, hv]

/-- Witness for C6 at a metadata mapping carrying the trace header. -/
theorem C6_witness :
    (NewGrpcXrayUnaryServerInterceptor (NewFixedSegmentNamer "svc")
        (some [(TraceIDHeaderKey, ["T"])]) none "/m"
        ((none : Option Nat), (none : Option String))).traceStringUsed = some "T" :=
  (C6_trace_string (NewFixedSegmentNamer "svc") [(TraceIDHeaderKey, ["T"])] none "/m"
    ((none : Option Nat), (none : Option String))).1 "T" [] (by decide)

/-- C7: the request metadata attached to the created segment is exactly
    method POST, URL the registered full method path, client address the
    peer address when present and empty otherwise, and the fixed user
    agent constant. -/
theorem C7_request_metadata {ρ : Type} (sn : SegmentNamer) (m : Metadata)
    (peerAddr : Option String) (fullMethod : String) (handler : Option ρ × Option String) :
    (NewGrpcXrayUnaryServerInterceptor sn (some m) peerAddr fullMethod
        handler).segment.map (fun s => s.http.Request) =
      some { Method := "POST", URL := fullMethod, ClientIP := peerAddr.getD "",
             UserAgent := "Vendrive-gRPC-XRAY-Interceptor" } := by
  cases peerAddr <;>
    simp [NewGrpcXrayUnaryServerInterceptor, GrpcMethod, CustomUserAgent]

/-- C9: whenever a segment is created (metadata present), Close is
    invoked exactly once with a nil error payload, whatever result and
    error the handler produced. -/
theorem C9_close_once {ρ : Type} (sn : SegmentNamer) (m : Metadata)
    (peerAddr : Option String) (fullMethod : String) (handler : Option ρ × Option String) :
    (NewGrpcXrayUnaryServerInterceptor sn (some m) peerAddr fullMethod handler).closeCalls =
      [none] :=
  rfl

/-- C10: the host mapping is applied exactly once on every invocation,
    its panic happens exactly when it fails on the target — also when no
    segment is active — and the wrapped call runs exactly when it
    succeeds. -/
theorem C10_host_applied_first (f : GoStr → Option GoStr) (target : GoStr)
    (segInCtx : Option Segment) (downstreamHeader : String) (invokerErr : Option String) :
    (NewGrpcXrayUnaryClientInterceptor f target segInCtx downstreamHeader
        invokerErr).hostApplications = 1 ∧
      (NewGrpcXrayUnaryClientInterceptor f target segInCtx downstreamHeader
        invokerErr).panicked = (f target).isNone ∧
      (NewGrpcXrayUnaryClientInterceptor f target segInCtx downstreamHeader
        invokerErr).invokerInvoked = (f target).isSome := by
  cases h : f target <;> cases segInCtx <;>
    simp [NewGrpcXrayUnaryClientInterceptor, h]

end XrayGrpc
